import Mathlib

/-!
Verification development for the leveelogic cross-section geometry core
(`leveelogic/deltares/dstability.py`,
`leveelogic/deltares/algorithms/algorithm_phreatic_line.py`,
`leveelogic/deltares/algorithms/algorithm_berm_wsbd.py`).

Coordinates are modelled as exact rationals.  Python runtime failures
(`ValueError`, `AttributeError`, `TypeError`, `IndexError`, the library's
`AlgorithmInputCheckError` / `AlgorithmExecutionError`, `NotImplementedError`)
are modelled by an explicit error type, and fallible code returns `Except`.
-/

/-- A 2D point `(x, z)`. -/
abbrev Pt : Type := ℚ × ℚ

/-- The error kinds the modelled Python code can raise.
`inputError` models `AlgorithmInputCheckError`, `executionError` models
`AlgorithmExecutionError`; the others model the Python builtins. -/
inductive PyError : Type
  | inputError (msg : String)
  | executionError (msg : String)
  | valueError (msg : String)
  | attributeError (msg : String)
  | typeError (msg : String)
  | indexError (msg : String)
  | notImplementedError
  deriving DecidableEq, Repr

/-- Python `list[0]`: raises `IndexError` on an empty list. -/
def pyListGet0 {α : Type} : List α → Except PyError α
  | [] => .error (.indexError "list index out of range")
  | a :: _ => .ok a

/-- Python `list[-1]`: raises `IndexError` on an empty list. -/
def pyListLast {α : Type} (l : List α) : Except PyError α :=
  match l.getLast? with
  | none => .error (.indexError "list index out of range")
  | some a => .ok a

/-- Python `min` over a list of rationals (raises `ValueError` when empty). -/
def pyMin : List ℚ → Except PyError ℚ
  | [] => .error (.valueError "min() arg is an empty sequence")
  | x :: xs => .ok (xs.foldl min x)

/-- Python `max` over a list of rationals (raises `ValueError` when empty). -/
def pyMax : List ℚ → Except PyError ℚ
  | [] => .error (.valueError "max() arg is an empty sequence")
  | x :: xs => .ok (xs.foldl max x)

/-- Python `list.index(a)`: index of the first occurrence, `ValueError` if
absent. -/
def pyIndexOf {α : Type} [DecidableEq α] : List α → α → Except PyError Nat
  | [], _ => .error (.valueError "x not in list")
  | b :: l, a =>
    if b = a then .ok 0
    else match pyIndexOf l a with
      | .ok n => .ok (n + 1)
      | .error e => .error e

/-- First-occurrence deduplication, as Python's
`for r in zs: if not r in result: result.append(r)`. -/
def pyDedupAux {α : Type} [DecidableEq α] (seen : List α) : List α → List α
  | [] => []
  | x :: xs => if x ∈ seen then pyDedupAux seen xs else x :: pyDedupAux (x :: seen) xs

/-- Python-style first-occurrence deduplication. -/
def pyDedup {α : Type} [DecidableEq α] (l : List α) : List α := pyDedupAux [] l

/-- Insertion step for a descending sort. -/
def insertDesc (x : ℚ) : List ℚ → List ℚ
  | [] => [x]
  | y :: ys => if y < x then x :: y :: ys else y :: insertDesc x ys

/-- Python `sorted(l, reverse=True)` (stability is irrelevant here because the
lists sorted in the model have already been deduplicated). -/
def sortDesc (l : List ℚ) : List ℚ := l.foldr insertDesc []

/-- Python `round(v, 3)`: round half to even at three decimals. -/
def round3 (q : ℚ) : ℚ :=
  let s : ℚ := q * 1000
  let f : ℤ := ⌊s⌋
  let r : ℚ := s - f
  (if r < 1/2 then (f : ℚ) else
   if 1/2 < r then (f + 1 : ℤ) else
   if f % 2 = 0 then (f : ℚ) else (f + 1 : ℤ)) / 1000

/-- Coordinate-wise `round(·, 3)` of a point. -/
def round3pt (p : Pt) : Pt := (round3 p.1, round3 p.2)

/-- Consecutive edges of a polyline, in traversal order. -/
def edgesOf (pl : List Pt) : List (Pt × Pt) := pl.zip pl.tail

/-- Cross product of the two segment direction vectors (zero iff parallel
or degenerate). -/
def segD (p1 p2 q1 q2 : Pt) : ℚ :=
  (p2.1 - p1.1) * (q2.2 - q1.2) - (p2.2 - p1.2) * (q2.1 - q1.1)

/-- Parameter of the intersection on the first segment. -/
def segT (p1 p2 q1 q2 : Pt) : ℚ :=
  ((q1.1 - p1.1) * (q2.2 - q1.2) - (q1.2 - p1.2) * (q2.1 - q1.1)) / segD p1 p2 q1 q2

/-- Parameter of the intersection on the second segment. -/
def segU (p1 p2 q1 q2 : Pt) : ℚ :=
  ((q1.1 - p1.1) * (p2.2 - p1.2) - (q1.2 - p1.2) * (p2.1 - p1.1)) / segD p1 p2 q1 q2

/-- Modelled from the spec (`helpers.py` is not in the sources): the
segment/segment intersection used by the geometry primitives.  Parallel or
degenerate segment pairs are treated as no intersection; an intersection
counts when it lies within both segments, endpoints included.  The point is
computed on the second segment's parametrisation. -/
def segSegIntersection (p1 p2 q1 q2 : Pt) : Option Pt :=
  if segD p1 p2 q1 q2 = 0 then none
  else if 0 ≤ segT p1 p2 q1 q2 ∧ segT p1 p2 q1 q2 ≤ 1 ∧
          0 ≤ segU p1 p2 q1 q2 ∧ segU p1 p2 q1 q2 ≤ 1 then
    some (q1.1 + segU p1 p2 q1 q2 * (q2.1 - q1.1),
          q1.2 + segU p1 p2 q1 q2 * (q2.2 - q1.2))
  else none

/-- Modelled from the spec (`helpers.py` is not in the sources): intersections
of the segment `(x1,z1)-(x2,z2)` with every edge of `polyline`, in the order
the edges occur. -/
def line_polyline_intersections (x1 z1 x2 z2 : ℚ) (polyline : List Pt) : List Pt :=
  (edgesOf polyline).filterMap fun e => segSegIntersection (x1, z1) (x2, z2) e.1 e.2

/-- Modelled from the spec (`helpers.py` is not in the sources): every edge of
`a` against every edge of `b`, results in `a`'s edge order, then `b`'s edge
order within an edge. -/
def polyline_polyline_intersections (a b : List Pt) : List Pt :=
  (edgesOf a).flatMap fun ea =>
    (edgesOf b).filterMap fun eb => segSegIntersection ea.1 ea.2 eb.1 eb.2

/-- The characteristic point types used by the modelled algorithms
(modelled from the spec; `characteristic_point.py` is not in the sources). -/
inductive CPType : Type
  | toeLeft | crestLeft | referencePoint | crestRight | toeRight
  | startPolder | startSurface | endSurface
  | embTopWaterSide | embTopLandSide | embToeWaterSide | embToeLandSide
  | shoulderBaseLandSide
  deriving DecidableEq, Repr

/-- A characteristic point `(point_type, x)`.  `valid` models the spec's
distinction between a numeric and a not-a-number `x` (`is_valid` on the
missing `CharacteristicPoint` class): a landmark can be registered yet carry
an undefined coordinate. -/
structure CharacteristicPoint : Type where
  point_type : CPType
  x : ℚ
  valid : Bool := true
  deriving DecidableEq, Repr

/-- The `is_valid` accessor — modelled from the spec: valid means present with a numeric
(non-nan) coordinate. -/
def CharacteristicPoint.is_valid (cp : CharacteristicPoint) : Bool := cp.valid

/-- The possible return values of `DStability.get_characteristic_point`:
Python `None`, a single `CharacteristicPoint`, or a list of them. -/
inductive CPResult : Type
  | none
  | single (cp : CharacteristicPoint)
  | list (cps : List CharacteristicPoint)
  deriving DecidableEq, Repr

/-- The point types `dstability.py` treats as singular (one entry at most). -/
def singularTypes : List CPType :=
  [.toeLeft, .crestLeft, .referencePoint, .crestRight, .toeRight,
   .startPolder, .startSurface, .endSurface]

/-- Embedding of `DStability.get_characteristic_point`: for singular types the first
matching entry (or `None`), for all other types the list of matching entries,
with an empty match list replaced by `None`. -/
def get_characteristic_point (reg : List CharacteristicPoint) (t : CPType) : CPResult :=
  if t ∈ singularTypes then
    match reg.find? (fun cp => decide (cp.point_type = t)) with
    | some cp => .single cp
    | none => .none
  else if reg.filter (fun cp => decide (cp.point_type = t)) = [] then .none
  else .list (reg.filter (fun cp => decide (cp.point_type = t)))

/-- Accessing `.is_valid` on the result of `get_characteristic_point`, as the
phreatic-line `_check_input` does: on `None` or on a list this is a Python
`AttributeError`. -/
def pyIsValid : CPResult → Except PyError Bool
  | .none => .error (.attributeError "'NoneType' object has no attribute 'is_valid'")
  | .list _ => .error (.attributeError "'list' object has no attribute 'is_valid'")
  | .single cp => .ok cp.is_valid

/-- Accessing `.x` on the result of `get_characteristic_point`, as the
phreatic-line layouts do: on `None` or on a list this is a Python
`AttributeError`. -/
def pyAttrX : CPResult → Except PyError ℚ
  | .none => .error (.attributeError "'NoneType' object has no attribute 'x'")
  | .list _ => .error (.attributeError "'list' object has no attribute 'x'")
  | .single cp => .ok cp.x

/-- Python `list - float` (the phreatic line's `ds.z_at(Ex) - self.E_offset`
where `z_at` returns a list): always a `TypeError`. -/
def pyListSubFloat (zs : List ℚ) (off : ℚ) : Except PyError ℚ :=
  match zs, off with
  | _, _ => .error (.typeError "unsupported operand type(s) for -: 'list' and 'float'")

/-- Python `float - list` (the sand-on-clay layout's `Az - pz` where `pz` is a
`z_at` result): always a `TypeError`. -/
def pyFloatSubList (a : ℚ) (zs : List ℚ) : Except PyError ℚ :=
  match a, zs with
  | _, _ => .error (.typeError "unsupported operand type(s) for -: 'float' and 'list'")

/-- A soil layer: polygon vertices plus the soil tag (`None`-able in Python)
and a label, as handed to `add_layer`. -/
structure Layer : Type where
  points : List Pt
  soil : Option String
  label : String := ""
  deriving DecidableEq, Repr

/-- One waternet-creator-settings entry; `none` models a `nan` coordinate. -/
structure WCS : Type where
  embankmentToeLandSide : Option ℚ
  ditchEmbankmentSide : Option ℚ
  ditchLandSide : Option ℚ
  deriving DecidableEq, Repr

/-- Soil layout classification selecting the phreatic strategy (modelled from
the spec; the enum is not in the sources). -/
inductive MaterialLayoutType : Type
  | clayEmbankementOnClay | clayEmbankementOnSand
  | sandEmbankementOnClay | sandEmbankementOnSand
  deriving DecidableEq, Repr

/-- The slice of `DStability` state the algorithms read and write.
`points`, `surface`, `boundary` are the cached `_post_process` results;
`material_layout` and `ditch_points` model members that are not in the
sources. -/
structure DStability : Type where
  points : List Pt
  surface : List Pt
  layers : List Layer
  characteristic_points : List CharacteristicPoint
  soilCodes : List String
  waternetcreatorsettings : List WCS
  material_layout : MaterialLayoutType
  ditch_points : List Pt
  head_lines : List (List Pt) := []
  deriving DecidableEq, Repr

/-- Embedding of `DStability.has_soilcode`. -/
def has_soilcode (ds : DStability) (soilcode : String) : Bool :=
  ds.soilCodes.contains soilcode

/-- The z-values one layer contributes to `z_at(x)`: interpolation on every
edge of the layer's point list whose x-range contains `x`.  As in the source,
the closing edge back to the first point is never reached (the `i ==
len(layer.Points)` branch is dead inside `range(1, len(layer.Points))`). -/
def layerZs (x : ℚ) (pts : List Pt) : List ℚ :=
  (pts.zip pts.tail).filterMap fun e =>
    if min e.1.1 e.2.1 ≤ x ∧ x ≤ max e.1.1 e.2.1 then
      some (if e.1.1 = e.2.1 then e.1.2
            else e.1.2 + (x - e.1.1) / (e.2.1 - e.1.1) * (e.2.2 - e.1.2))
    else none

/-- Embedding of `DStability.z_at`: all layer intersections at `x`, deduplicated in
first-occurrence order, sorted from high to low. -/
def z_at (ds : DStability) (x : ℚ) : List ℚ :=
  sortDesc (pyDedup (ds.layers.flatMap fun layer => layerZs x layer.points))

/-- Embedding of `DStability.surface_points_between`: surface points with
`left <= x <= right` — bounds included. -/
def surface_points_between (ds : DStability) (left right : ℚ) : List Pt :=
  ds.surface.filter fun p => decide (left ≤ p.1 ∧ p.1 ≤ right)

/-- Modelled from the spec (the method is not in the sources): the surface
point nearest to the given x (first one on a tie); empty surface is an
error. -/
def get_closest_point_from_x (ds : DStability) (x : ℚ) : Except PyError Pt :=
  match ds.surface with
  | [] => .error (.valueError "empty surface")
  | p :: ps => .ok (ps.foldl (fun acc q => if |q.1 - x| < |acc.1 - x| then q else acc) p)

/-- The method `DStability.add_layer` — modelled from the spec: inserts a new layer
polygon tagged with the soil code.  Recomputing the cached surface/boundary
is done by the external polygon-union library and is not modelled; the cached
fields are left as they are. -/
def add_layer (ds : DStability) (pts : List Pt) (soil : Option String)
    (label : String := "") : DStability :=
  { ds with layers := ds.layers ++ [⟨pts, soil, label⟩] }

/-- Embedding of `DStability.set_phreatic_line`: adds a new head line (the old one is not
deleted, only superseded). -/
def set_phreatic_line (ds : DStability) (pts : List Pt) : DStability :=
  { ds with head_lines := ds.head_lines ++ [pts] }

/-- Embedding of `DStability.left`: `min([p[0] for p in self.points])`. -/
def dsLeft (ds : DStability) : Except PyError ℚ := pyMin (ds.points.map Prod.fst)

/-- Embedding of `DStability.right`: `max([p[0] for p in self.points])`. -/
def dsRight (ds : DStability) : Except PyError ℚ := pyMax (ds.points.map Prod.fst)

/-- Python `list[n]`: raises `IndexError` when out of range. -/
def pyListGet {α : Type} (l : List α) (n : Nat) : Except PyError α :=
  match l.get? n with
  | some a => .ok a
  | none => .error (.indexError "list index out of range")

/-- The `AlgorithmPhreaticLine` parameters (pydantic fields with their
defaults). -/
structure PhreaticAlg : Type where
  river_level : ℚ
  polder_level : ℚ
  B_offset : ℚ := 1
  C_offset : ℚ := 3/2
  E_offset : ℚ := 0
  D_offset : Option ℚ := none
  surface_offset : ℚ := 0
  deriving DecidableEq, Repr

/-- Embedding of `AlgorithmPhreaticLine._check_input`: queries the four embankment
landmarks through `get_characteristic_point` and reads `.is_valid` on each
result; an invalid one is reported as `AlgorithmInputCheckError`. -/
def phreatic_check_input (ds : DStability) : Except PyError Unit := do
  let v1 ← pyIsValid (get_characteristic_point ds.characteristic_points .embTopWaterSide)
  if ¬ v1 then
    Except.error (.inputError "The point for the embankment top waterside is not defined in the Waternet creator settings.")
  else do
  let v2 ← pyIsValid (get_characteristic_point ds.characteristic_points .embTopLandSide)
  if ¬ v2 then
    Except.error (.inputError "The point for the embankment top landside is not defined in the Waternet creator settings.")
  else do
  let v3 ← pyIsValid (get_characteristic_point ds.characteristic_points .embToeLandSide)
  if ¬ v3 then
    Except.error (.inputError "The point for the embankment toe landside is not defined in the Waternet creator settings.")
  else do
  let v4 ← pyIsValid (get_characteristic_point ds.characteristic_points .embToeWaterSide)
  if ¬ v4 then
    Except.error (.inputError "The point for the embankment toe waterside is not defined in the Waternet creator settings.")
  else
    Except.ok ()

/-- The message of the clay/sand layouts' missing-intersection error. -/
def clayNoIntersectionMsg (river_level : ℚ) : String :=
  "No intersection with the surface and the given river level (" ++
    toString river_level ++ ") found."

/-- Control point A of the layouts: the first intersection of the segment at
`river_level` across the model with the surface, or an
`AlgorithmExecutionError` naming the river level. -/
def clayPointA (alg : PhreaticAlg) (ds : DStability) : Except PyError Pt := do
  let l ← dsLeft ds
  let r ← dsRight ds
  match line_polyline_intersections l alg.river_level r alg.river_level ds.surface with
  | [] => Except.error (.executionError (clayNoIntersectionMsg alg.river_level))
  | a :: _ => Except.ok a

/-- The `E.z` line of the clay layout, `Ez = ds.z_at(Ex) - self.E_offset`:
`z_at` returns a list, so this subtraction is a Python `TypeError`. -/
def clayPointEz (ds : DStability) (Ex E_offset : ℚ) : Except PyError ℚ :=
  pyListSubFloat (z_at ds Ex) E_offset

/-- Embedding of `AlgorithmPhreaticLine._execute_clay_layout`. -/
def execute_clay_layout (alg : PhreaticAlg) (ds : DStability) : Except PyError (List Pt) := do
  let A ← clayPointA alg ds
  let Bx := A.1 + 1
  let Bz := A.2 - alg.B_offset
  let Cx ← pyAttrX (get_characteristic_point ds.characteristic_points .embTopLandSide)
  let Cz := A.2 - alg.C_offset
  let Ex ← pyAttrX (get_characteristic_point ds.characteristic_points .embToeLandSide)
  let Ez ← clayPointEz ds Ex alg.E_offset
  let shoulder := get_characteristic_point ds.characteristic_points .shoulderBaseLandSide
  let sValid ← pyIsValid shoulder
  let Dx ← if sValid then pyAttrX shoulder else Except.ok ((Ex + Cx) / 2)
  let Dz ← match alg.D_offset with
    | none => Except.ok (Cz + (Dx - Cx) / (Ex - Cx) * (Ez - Cz))
    | some dOff => pyListSubFloat (z_at ds Dx) dOff
  let r ← dsRight ds
  let F0 : Pt := (Ex + (Ez - alg.polder_level) * (Ex - Dx) / (Ez - Dz), alg.polder_level)
  let F1 : Pt := if F0.1 > r then (r - 1/100, alg.polder_level) else F0
  let l ← dsLeft ds
  let F : Pt :=
    if 0 < ds.ditch_points.length then
      match line_polyline_intersections l alg.polder_level r alg.polder_level ds.ditch_points with
      | [] => F1
      | g :: _ => g
    else F1
  Except.ok [A, (Bx, Bz), (Cx, Cz), (Dx, Dz), (Ex, Ez), F]

/-- Embedding of `AlgorithmPhreaticLine._execute_sand_on_clay_layout`. -/
def execute_sand_on_clay_layout (alg : PhreaticAlg) (ds : DStability) : Except PyError (List Pt) := do
  let A ← clayPointA alg ds
  let Bx := A.1
  let px ← pyAttrX (get_characteristic_point ds.characteristic_points .embToeWaterSide)
  let t1 ← pyFloatSubList A.2 (z_at ds px)
  let Bz := A.2 - 1/2 * t1
  let Ex ← pyAttrX (get_characteristic_point ds.characteristic_points .embToeLandSide)
  let Ez0 ← pyListSubFloat (z_at ds Ex) alg.E_offset
  let Ez := Ez0 + 1/4 * (A.2 - Ez0)
  let Cx ← pyAttrX (get_characteristic_point ds.characteristic_points .embTopLandSide)
  let Cz := Bz + (Cx - Bx) / (Ex - Bx) * (Ez - Bz)
  let shoulder := get_characteristic_point ds.characteristic_points .shoulderBaseLandSide
  let sValid ← pyIsValid shoulder
  let Dx ← if sValid then pyAttrX shoulder else Except.ok ((Ex + Cx) / 2)
  let Dz := Cz + (Dx - Cx) / (Ex - Cx) * (Ez - Cz)
  let r ← dsRight ds
  let F0 : Pt := (Ex + (Ez - alg.polder_level) * (Ex - Dx) / (Ez - Dz), alg.polder_level)
  let F1 : Pt := if F0.1 > r then (r - 1/100, alg.polder_level) else F0
  let l ← dsLeft ds
  let F : Pt :=
    if 0 < ds.ditch_points.length then
      match line_polyline_intersections l alg.polder_level r alg.polder_level ds.ditch_points with
      | [] => F1
      | g :: _ => g
    else F1
  Except.ok [A, (Bx, Bz), (Cx, Cz), (Dx, Dz), (Ex, Ez), F]

/-- Strategy dispatch on the material layout, as in
`AlgorithmPhreaticLine._execute`; sand-on-sand is unimplemented. -/
def phreaticDispatch (alg : PhreaticAlg) (ds : DStability) : Except PyError (List Pt) :=
  match ds.material_layout with
  | .clayEmbankementOnClay => execute_clay_layout alg ds
  | .clayEmbankementOnSand => execute_clay_layout alg ds
  | .sandEmbankementOnClay => execute_sand_on_clay_layout alg ds
  | .sandEmbankementOnSand => .error .notImplementedError

/-- Surface vertices strictly between two control points, with z linearly
interpolated on the control segment (the inner loop of the post-processing
step). -/
def interpBetween (surf : List Pt) (p1 p2 : Pt) : List Pt :=
  (surf.filter fun p => decide (p1.1 < p.1 ∧ p.1 < p2.1)).map
    fun p => (p.1, p1.2 + (p.1 - p1.1) / (p2.1 - p1.1) * (p2.2 - p1.2))

/-- The post-processing interpolation chain over the control points from C on:
append each control point, the interpolated surface vertices after it, and
the final control point. -/
def plChain (surf : List Pt) : List Pt → List Pt
  | [] => []
  | [_] => []
  | p :: q :: rest =>
    match rest with
    | [] => p :: (interpBetween surf p q ++ [q])
    | _ :: _ => p :: (interpBetween surf p q ++ plChain surf (q :: rest))

/-- The height-clamping pass of the post-processing step.  For every point
whose x lies after C and at or before F the source evaluates
`z_surface - self.surface_offset` where `z_surface = ds.z_at(x)` is a list,
a Python `TypeError`; the clamping writes that would follow are kept for
shape. -/
def clampLoop (alg : PhreaticAlg) (ds : DStability) (cx fx : ℚ) (prev : Option ℚ) :
    List Pt → Except PyError (List Pt)
  | [] => .ok []
  | p :: ps => do
    let p' ←
      if cx < p.1 ∧ p.1 ≤ fx then do
        let zc ← pyListSubFloat (z_at ds p.1) alg.surface_offset
        let z1 := if zc < p.2 then zc else p.2
        let z2 := match prev with
          | some pz => if pz < z1 then pz else z1
          | none => z1
        Except.ok ((p.1, z2) : Pt)
      else Except.ok p
    let rest ← clampLoop alg ds cx fx (some p'.2) ps
    Except.ok (p' :: rest)

/-- The shared post-processing of `AlgorithmPhreaticLine._execute`: seed with
the left edge at river level and A, B; chain C..F with interpolated surface
vertices; clamp heights between C and F; append the right edge at polder
level.  (`abcdef[2]` and `abcdef[-1]` are read inside the loop condition on
the first iteration; the seeded list is never empty, so they are hoisted.) -/
def phreaticPost (alg : PhreaticAlg) (ds : DStability) (abcdef : List Pt) :
    Except PyError (List Pt) := do
  let l ← dsLeft ds
  let plpoints := ((l, alg.river_level) :: abcdef.take 2) ++ plChain ds.surface (abcdef.drop 2)
  let c ← pyListGet abcdef 2
  let f ← pyListLast abcdef
  let clamped ← clampLoop alg ds c.1 f.1 none plpoints
  let r ← dsRight ds
  Except.ok (clamped ++ [(r, alg.polder_level)])

/-- Outcome of one modelled Python call: a value or an error, together with
the final object store. -/
inductive PyResult (σ α : Type) : Type
  | ok (a : α) (s : σ)
  | err (e : PyError) (s : σ)
  deriving DecidableEq, Repr

/-- A stateful, fallible Python computation over an object store `σ`.
Unlike `Except`, an error outcome still carries the store, so frame
properties can be stated for raising runs. -/
def PyM (σ α : Type) : Type := σ → PyResult σ α

/-- The `pure` of `PyM`. -/
def PyM.pure {σ α : Type} (a : α) : PyM σ α := fun s => .ok a s

/-- The `bind` of `PyM`: errors short-circuit but keep the store. -/
def PyM.bind {σ α β : Type} (m : PyM σ α) (f : α → PyM σ β) : PyM σ β := fun s =>
  match m s with
  | .ok a s' => f a s'
  | .err e s' => .err e s'

instance : Monad (PyM σ) where
  pure := PyM.pure
  bind := PyM.bind

/-- The object store of one algorithm run: the caller's `DStability`
(`self.ds`) and the working copy (`ds = deepcopy(self.ds)`). -/
structure ObjState : Type where
  self_ds : DStability
  ds : DStability
  deriving DecidableEq, Repr

/-- Read the caller's object `self.ds`. -/
def getSelf : PyM ObjState DStability := fun s => .ok s.self_ds s

/-- Read the working copy `ds`. -/
def getWork : PyM ObjState DStability := fun s => .ok s.ds s

/-- Mutate the working copy `ds` (all geometry insertions go through this). -/
def setWork (d : DStability) : PyM ObjState Unit := fun s => .ok () { s with ds := d }

/-- Run a pure fallible computation inside `PyM`. -/
def liftE {α : Type} (x : Except PyError α) : PyM ObjState α := fun s =>
  match x with
  | .ok a => .ok a s
  | .error e => .err e s

/-- Embedding of `AlgorithmPhreaticLine._execute`: deep-copy the input, run the layout
strategy and the post-processing, and set the phreatic line on the copy. -/
def phreaticExecuteM (alg : PhreaticAlg) : PyM ObjState DStability := do
  let orig ← getSelf
  setWork orig
  let w ← getWork
  let abcdef ← liftE (phreaticDispatch alg w)
  let pl ← liftE (phreaticPost alg w abcdef)
  let w2 ← getWork
  setWork (set_phreatic_line w2 pl)
  getWork

/-- The `AlgorithmBermWSBD` parameters and the landmark fields its
`_check_input` fills from the waternet creator settings (`none` models
`nan`). -/
structure BermAlg : Type where
  soilcode : String := ""
  slope_top : ℚ
  slope_bottom : ℚ
  width : ℚ := 0
  height : ℚ := 0
  fill_ditch : Bool := false
  ditch_soilcode : Option String := none
  embankement_toe_land_side : Option ℚ := none
  ditch_embankement_side : Option ℚ := none
  ditch_land_side : Option ℚ := none
  deriving DecidableEq, Repr

/-- Embedding of `AlgorithmBermWSBD._check_input`: when a berm is requested the soil code
must exist and the embankment toe (read from the first waternet creator
settings entry) must be set; the ditch characteristics are then read from
the first waternet creator settings entry unconditionally, and validated
only when `fill_ditch` is requested. -/
def bermCheckInput (alg : BermAlg) (ds : DStability) : Except PyError BermAlg := do
  let a1 ←
    if alg.width > 0 ∧ alg.height > 0 then
      if ¬ has_soilcode ds alg.soilcode then
        Except.error (.inputError ("AlgorithmBermWSBD got an invalid soilcode '" ++ alg.soilcode ++ "'"))
      else do
        let w0 ← pyListGet0 ds.waternetcreatorsettings
        let a := { alg with embankement_toe_land_side := w0.embankmentToeLandSide }
        if a.embankement_toe_land_side.isNone then
          Except.error (.inputError "The given stix file has no waternet creator settings where the embankement toe land side point is set which is required for this algorithm to run.")
        else Except.ok a
    else Except.ok alg
  let w0 ← pyListGet0 ds.waternetcreatorsettings
  let a2 := { a1 with ditch_embankement_side := w0.ditchEmbankmentSide,
                      ditch_land_side := w0.ditchLandSide }
  if a2.fill_ditch then
    if a2.ditch_embankement_side.isNone ∨ a2.ditch_land_side.isNone then
      Except.error (.inputError "Cannot fill the ditch since the ditch embankement side and/or the ditch land side points are missing.")
    else match a2.ditch_soilcode with
      | none => Except.error (.inputError "Cannot fill the ditch since the ditch soilcode is not set.")
      | some dc =>
        if ¬ has_soilcode ds dc then
          Except.error (.inputError ("Cannot fill the ditch since the ditch soilcode ('" ++ dc ++ "') is not valid."))
        else Except.ok a2
  else Except.ok a2

/-- Guard for using a possibly-`nan` stored coordinate where the missing
nearest-point method would receive it; behaviour at `nan` is unspecified
upstream and modelled as an error (the validated paths never reach it). -/
def pyNanGuard : Option ℚ → Except PyError ℚ
  | none => .error (.valueError "nan coordinate")
  | some q => .ok q

/-- The ditch-fill polygon: the two nearest surface points and, to close the
polygon along the ground, the surface points between them (bounds included)
in reverse order. -/
def ditchPolygonPoints (fp1 fp2 : Pt) (selfDs : DStability) : List Pt :=
  [fp1, fp2] ++ (surface_points_between selfDs fp1.1 fp2.1).reverse

/-- The ditch-fill step of `AlgorithmBermWSBD._execute` (it reads from
`self.ds`, not from the working copy). -/
def ditchFillPoints (alg : BermAlg) (selfDs : DStability) : Except PyError (List Pt) := do
  let dx ← pyNanGuard alg.ditch_embankement_side
  let lx ← pyNanGuard alg.ditch_land_side
  let fp1 ← get_closest_point_from_x selfDs dx
  let fp2 ← get_closest_point_from_x selfDs lx
  Except.ok (ditchPolygonPoints fp1 fp2 selfDs)

/-- Points P1 (toe on the surface), P2 (toe raised by the berm height) and
the top line ends P3, P4 on the model edges.  A `nan` toe coordinate
(`none`) makes every `z_at` comparison false, so `z_at(nan)` is empty and
the `[0]` raises `IndexError`. -/
def bermP1234 (alg : BermAlg) (w : DStability) : Except PyError (Pt × Pt × Pt × Pt) := do
  match alg.embankement_toe_land_side with
  | none => Except.error (.indexError "list index out of range")
  | some toe => do
    let z0 ← pyListGet0 (z_at w toe)
    let p1 : Pt := (toe, z0)
    let p2 : Pt := (toe, z0 + alg.height)
    let l ← dsLeft w
    let p3 : Pt := (l, p2.2 + (toe - l) / alg.slope_top)
    let r ← dsRight w
    let p4 : Pt := (r, p2.2 - (r - toe) / alg.slope_top)
    Except.ok (p1, p2, p3, p4)

/-- Message of the missing-left-intersection failure (a Python
`ValueError` in the source). -/
def bermNoLeftMsg : String :=
  "No intersections on the left side of x_toe, can not create a berm"

/-- Selection of pA: the last kept intersection, or the `ValueError` when
none is left of the toe. -/
def bermPA (kept : List Pt) : Except PyError Pt :=
  match kept.getLast? with
  | none => .error (.valueError bermNoLeftMsg)
  | some pa => .ok pa

/-- Message of the missing pB–p5 intersection failure (a Python
`ValueError` in the source). -/
def bermNoBP5Msg : String :=
  "No intersections between point B and p5, cannot create berm"

/-- Selection of pC: the last intersection of segment pB–p5 with the
surface. -/
def bermPC (w : DStability) (pB p5 : Pt) : Except PyError Pt :=
  match (polyline_polyline_intersections [pB, p5] w.surface).getLast? with
  | none => .error (.valueError bermNoBP5Msg)
  | some pc => .ok pc

/-- Rounding of the `[pA, pB, pC]`/surface intersections to three decimals,
re-inserting the raw pA in front and/or appending the raw pC when their
rounded values are missing from the rounded list. -/
def bermRoundedInts (pA pC : Pt) (raw : List Pt) : List Pt :=
  let r := raw.map round3pt
  let r1 := if round3pt pA ∈ r then r else pA :: r
  if round3pt pC ∈ r1 then r1 else r1 ++ [pC]

/-- Consecutive disjoint pairs of a list (the `range(0, len, 2)` pairing). -/
def pairChunks {α : Type} : List α → List (α × α)
  | a :: b :: rest => (a, b) :: pairChunks rest
  | _ => []

/-- One berm layer polygon: the bounding pair (with pB inserted when its x
lies strictly between them) followed by the surface points between the
bounds (bounds included) in reverse order. -/
def bermLayerPoints (pB : Pt) (w : DStability) (p1 p2 : Pt) : List Pt :=
  (if p1.1 < pB.1 ∧ pB.1 < p2.1 then [p1, pB, p2] else [p1, p2])
    ++ (surface_points_between w p1.1 p2.1).reverse

/-- The layer-insertion loop: one `add_layer` per consecutive intersection
pair.  An odd tail would make Python's `intersections[i + 1]` raise
`IndexError` (the loop only runs after the even-count check). -/
def bermAddLayers (soil : String) (pB : Pt) : List Pt → DStability → Except PyError DStability
  | [], ds => .ok ds
  | [_], _ => .error (.indexError "list index out of range")
  | p :: q :: rest, ds =>
    bermAddLayers soil pB rest (add_layer ds (bermLayerPoints pB ds p q) (some soil))

/-- Message of the odd-intersection-count failure (a Python `ValueError` in
the source). -/
def bermOddMsg : String :=
  "The berm continues outside of the right limit of the geometry, cannot create berm"

/-- The even-count check followed by the layer-insertion loop. -/
def bermFinish (soil : String) (pB : Pt) (ints : List Pt) (ds : DStability) :
    Except PyError DStability :=
  if ints.length % 2 ≠ 0 then .error (.valueError bermOddMsg)
  else bermAddLayers soil pB ints ds

/-- The berm-sizing part of `AlgorithmBermWSBD._execute` (lines after the
ditch fill), operating on the working copy. -/
def bermCore (alg : BermAlg) (w : DStability) : Except PyError DStability := do
  let pp ← bermP1234 alg w
  let p1 := pp.1
  let p3 := pp.2.2.1
  let p4 := pp.2.2.2
  let ints := polyline_polyline_intersections [p3, p4] w.surface
  let kept := ints.filter fun p => decide (p.1 < p1.1)
  let pA ← bermPA kept
  let pB : Pt := (pA.1 + alg.width, pA.2 - alg.width / alg.slope_top)
  let r ← dsRight w
  let p5 : Pt := (r, pB.2 - (r - pB.1) / alg.slope_bottom)
  let pC ← bermPC w pB p5
  let raw := polyline_polyline_intersections [pA, pB, pC] w.surface
  bermFinish alg.soilcode pB (bermRoundedInts pA pC raw) w

/-- The ditch-fill statement of `AlgorithmBermWSBD._execute`: when
requested, compute the polygon from `self.ds` and insert it into the working
copy. -/
def bermFillDitchM (alg : BermAlg) : PyM ObjState Unit :=
  if alg.fill_ditch then do
    let selfDs ← getSelf
    let fp ← liftE (ditchFillPoints alg selfDs)
    let w ← getWork
    setWork (add_layer w fp alg.ditch_soilcode "ditch fill")
  else pure ()

/-- The berm-sizing statement of `AlgorithmBermWSBD._execute`: skipped
(returning the working copy) when width or height is non-positive. -/
def bermSizeM (alg : BermAlg) : PyM ObjState DStability :=
  if alg.width ≤ 0 ∨ alg.height ≤ 0 then getWork
  else do
    let w ← getWork
    let ds2 ← liftE (bermCore alg w)
    setWork ds2
    getWork

/-- Embedding of `AlgorithmBermWSBD._execute`: deep-copy the input, optionally insert the
ditch-fill layer, and unless width or height is non-positive run the berm
sizing and insert one layer per intersection pair — all insertions on the
working copy. -/
def bermExecuteM (alg : BermAlg) : PyM ObjState DStability := do
  let orig ← getSelf
  setWork orig
  bermFillDitchM alg
  bermSizeM alg

/-- Modelled from the spec (`algorithm.py` is not in the sources):
`Algorithm.execute` validates the input and then executes; berm run on a
fresh object store. -/
def bermRun (alg : BermAlg) (orig : DStability) : PyResult ObjState DStability :=
  match bermCheckInput alg orig with
  | .error e => .err e { self_ds := orig, ds := orig }
  | .ok a => bermExecuteM a { self_ds := orig, ds := orig }

/-- Modelled from the spec (`algorithm.py` is not in the sources):
`Algorithm.execute` for the phreatic-line builder. -/
def phreaticRun (alg : PhreaticAlg) (orig : DStability) : PyResult ObjState DStability :=
  match phreatic_check_input orig with
  | .error e => .err e { self_ds := orig, ds := orig }
  | .ok _ => phreaticExecuteM alg { self_ds := orig, ds := orig }

/-- Is `true` exactly on an `AlgorithmExecutionError` outcome. -/
def PyResult.isExecError {σ α : Type} : PyResult σ α → Bool
  | .err (.executionError _) _ => true
  | _ => false

/-- Is `true` exactly on an `AlgorithmInputCheckError` result. -/
def Except.isInputError {α : Type} : Except PyError α → Bool
  | .error (.inputError _) => true
  | _ => false

/-- Is `true` exactly on a Python `AttributeError` result. -/
def Except.isAttributeError {α : Type} : Except PyError α → Bool
  | .error (.attributeError _) => true
  | _ => false

deriving instance DecidableEq for Except

/-- The element Python's `sorted(l, key=lambda x: x[1])[-1]` picks: the last
element attaining the maximal z (stable sort, so ties go to the latest
original occurrence); `none` on an empty list. -/
def pickTopmost : List Pt → Option Pt
  | [] => none
  | p :: ps =>
    match pickTopmost ps with
    | none => some p
    | some q => if q.2 < p.2 then some p else some q

/-- The surface derivation of `DStability._post_process` (lines 280–298),
starting from the rounded boundary vertex list: take the topmost point among
those sharing the minimal x, rotate the boundary to start there, and cut at
the first occurrence of the topmost point among those sharing the maximal
x. -/
def postProcessSurface (boundary : List Pt) : Except PyError (List Pt) :=
  match pyMin (boundary.map Prod.fst) with
  | .error e => .error e
  | .ok left =>
    match pickTopmost (boundary.filter fun p => decide (p.1 = left)) with
    | none => .error (.indexError "list index out of range")
    | some topleft =>
      match pyMax (boundary.map Prod.fst) with
      | .error e => .error e
      | .ok right =>
        match pickTopmost (boundary.filter fun p => decide (p.1 = right)) with
        | none => .error (.indexError "list index out of range")
        | some rightmost =>
          match pyIndexOf boundary topleft with
          | .error e => .error e
          | .ok idxL =>
            match pyIndexOf (boundary.drop idxL ++ boundary.take idxL) rightmost with
            | .error e => .error e
            | .ok idxR =>
              .ok ((boundary.drop idxL ++ boundary.take idxL).take (idxR + 1))

/-- Whether the x-coordinates of a point list are non-decreasing. -/
def xNonDecreasingB : List Pt → Bool
  | [] => true
  | [_] => true
  | p :: q :: rest => decide (p.1 ≤ q.1) && xNonDecreasingB (q :: rest)

/-- Following the spec's words, for comparison with the source's
`surface_points_between`: the surface points whose x lies strictly between
the bounds, the bounding x-values themselves excluded. -/
def surface_points_strictly_between (ds : DStability) (left right : ℚ) : List Pt :=
  ds.surface.filter fun p => decide (left < p.1 ∧ p.1 < right)

/-- The caller's `self.ds` cell in the final store of a run outcome,
whether the run returned normally or raised. -/
def selfOf {α : Type} : PyResult ObjState α → DStability
  | .ok _ s => s.self_ds
  | .err _ s => s.self_ds

/-- A run outcome leaves the caller's cross-section untouched: whether it
returns normally or raises, the `self.ds` cell of the final store still
holds the original value. -/
def callerUnchanged (r : PyResult ObjState DStability) (orig : DStability) : Prop :=
  selfOf r = orig

/-- A computation never writes the caller's `self.ds` cell. -/
def keepsSelf {α : Type} (m : PyM ObjState α) : Prop :=
  ∀ s, selfOf (m s) = s.self_ds

/-- Clockwise simple boundary of a single overhanging soil layer (the kind a
polygon union can produce for a cross-section with an overhanging face). -/
def hexBoundary : List Pt := [(0, 0), (0, 2), (1, 2), (1/2, 1), (2, 1), (2, 0)]

/-- Phreatic scenario algorithm: river level 4, B offset 1, C offset 1.5,
E offset 0. -/
def scnAlg : PhreaticAlg :=
  { river_level := 4, polder_level := 1 }

/-- Phreatic scenario cross-section: the surface crosses z = 4 only at
x = 10; the embankment-top-landside and embankment-toe-landside landmarks
are registered and valid. -/
def scnDS : DStability :=
  { points := [(0, 8), (10, 4), (20, 0)]
    surface := [(0, 8), (10, 4), (20, 0)]
    layers := []
    characteristic_points :=
      [{ point_type := .embTopLandSide, x := 12 },
       { point_type := .embToeLandSide, x := 18 }]
    soilCodes := []
    waternetcreatorsettings := []
    material_layout := .clayEmbankementOnClay
    ditch_points := [] }

/-- Phreatic cross-section whose surface lies entirely below river level 4
(the surface edge is horizontal at z = 2, parallel to the probe line). -/
def scnDSNoInt : DStability :=
  { points := [(0, 2), (20, 2)]
    surface := [(0, 2), (20, 2)]
    layers := []
    characteristic_points :=
      [{ point_type := .embTopLandSide, x := 12 },
       { point_type := .embToeLandSide, x := 18 }]
    soilCodes := []
    waternetcreatorsettings := []
    material_layout := .clayEmbankementOnClay
    ditch_points := [] }

/-- Berm scenario where the top line stays above the whole surface, so no
intersection lies left of the toe. -/
def dsC6 : DStability :=
  { points := [(0, 5), (20, 5), (20, 0), (0, 0)]
    surface := [(0, 5), (20, 5)]
    layers := [{ points := [(0, 5), (20, 5), (20, 0), (0, 0)], soil := some "K" }]
    characteristic_points := []
    soilCodes := ["K"]
    waternetcreatorsettings := [{ embankmentToeLandSide := some 15,
                                  ditchEmbankmentSide := none, ditchLandSide := none }]
    material_layout := .clayEmbankementOnClay
    ditch_points := [] }

/-- Berm parameters for the no-left-intersection scenario: width 6,
height 2, slope_top 10, slope_bottom 1. -/
def algC6 : BermAlg :=
  { soilcode := "K", slope_top := 10, slope_bottom := 1, width := 6, height := 2 }

/-- Berm scenario where the top line is tangent to the surface at the vertex
(10, 12): the tangency point is counted once per adjacent surface edge while
the berm path leaves the model over the flat stretch, making the final
intersection list odd (3 entries). -/
def dsC7 : DStability :=
  { points := [(0, 0), (10, 12), (20, 0), (30, 0), (30, -5), (0, -5)]
    surface := [(0, 0), (10, 12), (20, 0), (30, 0)]
    layers := [{ points := [(0, 0), (10, 12), (20, 0), (30, 0), (30, -5), (0, -5)],
                 soil := some "K" }]
    characteristic_points := []
    soilCodes := ["K"]
    waternetcreatorsettings := [{ embankmentToeLandSide := some 20,
                                  ditchEmbankmentSide := none, ditchLandSide := none }]
    material_layout := .clayEmbankementOnClay
    ditch_points := [] }

/-- Berm parameters for the odd-count scenario. -/
def algC7 : BermAlg :=
  { soilcode := "K", slope_top := 1, slope_bottom := 1, width := 6, height := 2 }

/-- Ditch-fill scenario: a dip between the surface vertices at x = 10 and
x = 14, with the ditch landmarks exactly on those vertices. -/
def dsC8 : DStability :=
  { points := [(0, 0), (10, 0), (12, -2), (14, 0), (20, 0)]
    surface := [(0, 0), (10, 0), (12, -2), (14, 0), (20, 0)]
    layers := []
    characteristic_points := []
    soilCodes := ["K"]
    waternetcreatorsettings := [{ embankmentToeLandSide := none,
                                  ditchEmbankmentSide := some 10, ditchLandSide := some 14 }]
    material_layout := .clayEmbankementOnClay
    ditch_points := [] }

/-- Ditch-fill-only parameters (width and height zero). -/
def algC8 : BermAlg :=
  { slope_top := 10, slope_bottom := 1, fill_ditch := true, ditch_soilcode := some "K" }

/-- The cross-section `bermRun algC8 dsC8` produces: the ditch-fill layer
has been inserted, and its polygon repeats the bounding surface points. -/
def dsC8Out : DStability :=
  { dsC8 with layers :=
      [{ points := [(10, 0), (14, 0), (14, 0), (12, -2), (10, 0)],
         soil := some "K", label := "ditch fill" }] }

/-- Berm parameters requesting neither a berm nor a ditch fill. -/
def algC10 : BermAlg := { slope_top := 10, slope_bottom := 1 }

/-- Control point B of the clay layout, as derived from A in the source:
`B = (A.x + 1, A.z - B_offset)`. -/
def clayPointB (alg : PhreaticAlg) (ds : DStability) : Except PyError Pt := do
  let A ← clayPointA alg ds
  Except.ok (A.1 + 1, A.2 - alg.B_offset)

theorem find?_eq_head?_filter {α : Type} (p : α → Bool) (l : List α) :
    l.find? p = (l.filter p).head? := by
  induction l with
  | nil => rfl
  | cons a l ih =>
    by_cases h : p a
    · rw [List.find?_cons_of_pos _ h, List.filter_cons_of_pos h]
      rfl
    · rw [List.find?_cons_of_neg _ h, List.filter_cons_of_neg h, ih]

theorem get_cp_not_singular (reg : List CharacteristicPoint) (t : CPType)
    (h : t ∉ singularTypes) :
    get_characteristic_point reg t = .none ∨
      ∃ l, get_characteristic_point reg t = .list l := by
  unfold get_characteristic_point
  rw [if_neg h]
  split
  · exact Or.inl rfl
  · exact Or.inr ⟨_, rfl⟩

/-- Claim C9 (corrected): for singular point types `get_characteristic_point`
returns the single matching entry (`single`) or an absent result (`none`);
for every other point type it returns the ordered list of all matching
entries when there is at least one — but an empty match list is reported as
the absent result `none`, not as an empty list. -/
theorem C9_get_characteristic_point (reg : List CharacteristicPoint) (t : CPType) :
    (t ∈ singularTypes →
      ((reg.filter (fun cp => decide (cp.point_type = t)) = [] →
          get_characteristic_point reg t = .none) ∧
       (∀ cp, reg.filter (fun cp => decide (cp.point_type = t)) = [cp] →
          get_characteristic_point reg t = .single cp)))
    ∧ (t ∉ singularTypes →
      ((reg.filter (fun cp => decide (cp.point_type = t)) = [] →
          get_characteristic_point reg t = .none) ∧
       (reg.filter (fun cp => decide (cp.point_type = t)) ≠ [] →
          get_characteristic_point reg t =
            .list (reg.filter (fun cp => decide (cp.point_type = t)))))) := by
  constructor
  · intro ht
    constructor
    · intro hf
      unfold get_characteristic_point
      rw [if_pos ht, find?_eq_head?_filter, hf]
      rfl
    · intro cp hf
      unfold get_characteristic_point
      rw [if_pos ht, find?_eq_head?_filter, hf]
      rfl
  · intro ht
    constructor
    · intro hf
      unfold get_characteristic_point
      rw [if_neg ht, if_pos hf]
    · intro hf
      unfold get_characteristic_point
      rw [if_neg ht, if_neg hf]

/-- Witness for C9: a singleton singular registry returns its entry. -/
theorem C9_get_characteristic_point_witness :
    get_characteristic_point [{ point_type := .toeLeft, x := 5 }] .toeLeft =
      .single { point_type := .toeLeft, x := 5 } :=
  ((C9_get_characteristic_point [{ point_type := .toeLeft, x := 5 }] .toeLeft).1
    (by decide)).2 _ (by with_unfolding_all decide)

/-- Counterexample for C9: on an empty registry, a non-singular type yields
the absent result `none`, not the empty list the claim describes. -/
theorem C9_empty_registry_counterexample :
    get_characteristic_point [] .embTopLandSide = CPResult.none ∧
      CPResult.none ≠ CPResult.list [] := by
  constructor
  · rfl
  · intro h
    cases h

/-- Claim C3 (code_bug): the phreatic-line input check never raises the
`InputError` naming a missing landmark and never passes.  The four queried
embankment landmark types are not singular, so `get_characteristic_point`
returns `None` (absent) or a list (present), and reading `.is_valid` on
either is a Python `AttributeError` — for every registry state. -/
theorem C3_check_input_attribute_error :
    ∀ ds : DStability,
      (phreatic_check_input ds).isAttributeError = true ∧
      (phreatic_check_input ds).isInputError = false := by
  intro ds
  have h := get_cp_not_singular ds.characteristic_points .embTopWaterSide (by decide)
  unfold phreatic_check_input
  rcases h with h | ⟨l, h⟩ <;> rw [h] <;> exact ⟨rfl, rfl⟩

/-- Claim C4 (code_bug): the clay strategy never produces control point E as
`surface z minus E_offset`.  The `Ez` line subtracts a float from the list
`z_at` returns — a `TypeError` for every input — and the strategy aborts
even earlier, with an `AttributeError` at control point C, on the scenario
cross-section whose landmarks are all registered and valid. -/
theorem C4_clay_point_E_type_error :
    (∀ (ds : DStability) (Ex off : ℚ), clayPointEz ds Ex off =
        .error (.typeError "unsupported operand type(s) for -: 'list' and 'float'"))
    ∧ execute_clay_layout scnAlg scnDS =
        .error (.attributeError "'list' object has no attribute 'x'") :=
  ⟨fun _ _ _ => rfl, by with_unfolding_all decide⟩

/-- Claim C5 (code_bug): on the scenario input (river level 4, B offset 1,
C offset 1.5, surface crossing z = 4 only at x = 10) the clay strategy does
compute A = (10, 4) and B = (11, 3), and with no crossing it raises the
execution error naming the river level; but C is never produced — fetching
the embankment-top-landside landmark returns a list and reading `.x` on it
is a Python `AttributeError`. -/
theorem C5_clay_points_ABC :
    clayPointA scnAlg scnDS = .ok (10, 4)
    ∧ clayPointB scnAlg scnDS = .ok (11, 3)
    ∧ execute_clay_layout scnAlg scnDS =
        .error (.attributeError "'list' object has no attribute 'x'")
    ∧ clayPointA scnAlg scnDSNoInt =
        .error (.executionError (clayNoIntersectionMsg 4)) := by
  refine ⟨?_, ?_, ?_, ?_⟩ <;> with_unfolding_all decide

/-- Claim C10 (confirmed): with an empty waternet-creator-settings
collection the berm input check raises `IndexError` — not `InputError` —
even when no berm (width and height non-positive) and no ditch fill were
requested, because the ditch characteristics are read from the first entry
unconditionally. -/
theorem C10_empty_settings_index_error (alg : BermAlg) (ds : DStability)
    (hwcs : ds.waternetcreatorsettings = [])
    (hw : alg.width ≤ 0) (hh : alg.height ≤ 0) (hf : alg.fill_ditch = false) :
    bermCheckInput alg ds = .error (.indexError "list index out of range") := by
  unfold bermCheckInput
  rw [if_neg (fun hc => absurd hc.1 (not_lt.mpr hw)), hwcs]
  rfl

/-- Witness for C10: the concrete no-berm, no-ditch parameters against a
cross-section with no waternet creator settings. -/
theorem C10_empty_settings_index_error_witness :
    scnDS.waternetcreatorsettings = [] ∧ algC10.width ≤ 0 ∧ algC10.height ≤ 0 ∧
    algC10.fill_ditch = false ∧
    bermCheckInput algC10 scnDS = .error (.indexError "list index out of range") :=
  ⟨rfl, by with_unfolding_all decide, by with_unfolding_all decide, rfl,
    C10_empty_settings_index_error algC10 scnDS rfl (by with_unfolding_all decide)
      (by with_unfolding_all decide) rfl⟩

theorem foldl_min_spec (xs : List ℚ) : ∀ x : ℚ,
    (xs.foldl min x = x ∨ xs.foldl min x ∈ xs) ∧ xs.foldl min x ≤ x ∧
      ∀ y ∈ xs, xs.foldl min x ≤ y := by
  induction xs with
  | nil => intro x; exact ⟨Or.inl rfl, le_refl x, by simp⟩
  | cons z xs ih =>
    intro x
    obtain ⟨hmem, hle, hall⟩ := ih (min x z)
    simp only [List.foldl_cons]
    refine ⟨?_, le_trans hle (min_le_left x z), ?_⟩
    · rcases hmem with h | h
      · rcases min_choice x z with hc | hc
        · rw [h, hc]; exact Or.inl rfl
        · rw [h, hc]; exact Or.inr (List.mem_cons_self z xs)
      · exact Or.inr (List.mem_cons_of_mem z h)
    · intro y hy
      rcases List.mem_cons.mp hy with rfl | hy
      · exact le_trans hle (min_le_right x y)
      · exact hall y hy

theorem foldl_max_spec (xs : List ℚ) : ∀ x : ℚ,
    (xs.foldl max x = x ∨ xs.foldl max x ∈ xs) ∧ x ≤ xs.foldl max x ∧
      ∀ y ∈ xs, y ≤ xs.foldl max x := by
  induction xs with
  | nil => intro x; exact ⟨Or.inl rfl, le_refl x, by simp⟩
  | cons z xs ih =>
    intro x
    obtain ⟨hmem, hle, hall⟩ := ih (max x z)
    simp only [List.foldl_cons]
    refine ⟨?_, le_trans (le_max_left x z) hle, ?_⟩
    · rcases hmem with h | h
      · rcases max_choice x z with hc | hc
        · rw [h, hc]; exact Or.inl rfl
        · rw [h, hc]; exact Or.inr (List.mem_cons_self z xs)
      · exact Or.inr (List.mem_cons_of_mem z h)
    · intro y hy
      rcases List.mem_cons.mp hy with rfl | hy
      · exact le_trans (le_max_right x y) hle
      · exact hall y hy

theorem pyMin_ok {l : List ℚ} (h : l ≠ []) :
    ∃ m, pyMin l = .ok m ∧ m ∈ l ∧ ∀ y ∈ l, m ≤ y := by
  cases l with
  | nil => exact absurd rfl h
  | cons x xs =>
    obtain ⟨hmem, hle, hall⟩ := foldl_min_spec xs x
    refine ⟨xs.foldl min x, rfl, ?_, ?_⟩
    · rcases hmem with h | h
      · rw [h]; exact List.mem_cons_self x xs
      · exact List.mem_cons_of_mem x h
    · intro y hy
      rcases List.mem_cons.mp hy with rfl | hy
      · exact hle
      · exact hall y hy

theorem pyMax_ok {l : List ℚ} (h : l ≠ []) :
    ∃ m, pyMax l = .ok m ∧ m ∈ l ∧ ∀ y ∈ l, y ≤ m := by
  cases l with
  | nil => exact absurd rfl h
  | cons x xs =>
    obtain ⟨hmem, hle, hall⟩ := foldl_max_spec xs x
    refine ⟨xs.foldl max x, rfl, ?_, ?_⟩
    · rcases hmem with h | h
      · rw [h]; exact List.mem_cons_self x xs
      · exact List.mem_cons_of_mem x h
    · intro y hy
      rcases List.mem_cons.mp hy with rfl | hy
      · exact hle
      · exact hall y hy

theorem pickTopmost_spec : ∀ l : List Pt, l ≠ [] →
    ∃ tl, pickTopmost l = some tl ∧ tl ∈ l ∧ ∀ p ∈ l, p.2 ≤ tl.2 := by
  intro l
  induction l with
  | nil => intro h; exact absurd rfl h
  | cons p ps ih =>
    intro _
    by_cases hps : ps = []
    · subst hps
      exact ⟨p, rfl, List.mem_cons_self p [], by simp⟩
    · obtain ⟨q, hq, hqMem, hqMax⟩ := ih hps
      by_cases hlt : q.2 < p.2
      · refine ⟨p, ?_, List.mem_cons_self p ps, ?_⟩
        · simp only [pickTopmost]
          rw [hq]
          exact if_pos hlt
        · intro r hr
          rcases List.mem_cons.mp hr with rfl | hr
          · exact le_refl r.2
          · exact le_trans (hqMax r hr) (le_of_lt hlt)
      · refine ⟨q, ?_, List.mem_cons_of_mem p hqMem, ?_⟩
        · simp only [pickTopmost]
          rw [hq]
          exact if_neg hlt
        · intro r hr
          rcases List.mem_cons.mp hr with rfl | hr
          · exact not_lt.mp hlt
          · exact hqMax r hr

theorem pyIndexOf_spec {α : Type} [DecidableEq α] :
    ∀ (l : List α) (a : α), a ∈ l →
      ∃ n, pyIndexOf l a = .ok n ∧ (l.drop n).head? = some a ∧
        (l.take (n + 1)).getLast? = some a := by
  intro l
  induction l with
  | nil => intro a ha; cases ha
  | cons b l ih =>
    intro a ha
    by_cases hb : b = a
    · subst hb
      refine ⟨0, ?_, rfl, rfl⟩
      simp [pyIndexOf]
    · have ha' : a ∈ l := by
        rcases List.mem_cons.mp ha with rfl | hm
        · exact absurd rfl hb
        · exact hm
      obtain ⟨n, h1, h2, h3⟩ := ih a ha'
      refine ⟨n + 1, ?_, h2, ?_⟩
      · simp [pyIndexOf, hb, h1]
      · cases hc : l.take (n + 1) with
        | nil => rw [hc] at h3; cases h3
        | cons c t =>
          rw [List.take_succ_cons, hc]
          rw [hc] at h3
          rw [List.getLast?_cons_cons]
          exact h3

theorem mem_rotate {α : Type} {a : α} {l : List α} (h : a ∈ l) (i : Nat) :
    a ∈ l.drop i ++ l.take i := by
  rw [List.mem_append, Or.comm, ← List.mem_append, List.take_append_drop]
  exact h

theorem head?_take_succ {α : Type} (l : List α) (n : Nat) :
    (l.take (n + 1)).head? = l.head? := by
  cases l <;> rfl

/-- Claim C1 (amended): for every non-empty boundary produced by the polygon
union, the derived surface starts at the topmost point among those sharing
the boundary's minimal x and ends at the topmost point among those sharing
the maximal x.  (The claim's remaining part — non-decreasing x-coordinates —
fails for overhanging boundaries; see the counterexample.) -/
theorem C1_surface_endpoints (boundary : List Pt) (h : boundary ≠ []) :
    ∃ s tl rm, postProcessSurface boundary = .ok s ∧ s ≠ [] ∧
      s.head? = some tl ∧ s.getLast? = some rm ∧
      tl ∈ boundary ∧ (∀ p ∈ boundary, tl.1 ≤ p.1) ∧
      (∀ p ∈ boundary, p.1 = tl.1 → p.2 ≤ tl.2) ∧
      rm ∈ boundary ∧ (∀ p ∈ boundary, p.1 ≤ rm.1) ∧
      (∀ p ∈ boundary, p.1 = rm.1 → p.2 ≤ rm.2) := by
  have hmapne : boundary.map Prod.fst ≠ [] := by
    intro he
    exact h (List.map_eq_nil_iff.mp he)
  obtain ⟨left, hminEq, hminMem, hminLe⟩ := pyMin_ok hmapne
  obtain ⟨p0, hp0Mem, hp0x⟩ := List.mem_map.mp hminMem
  have hfl : boundary.filter (fun p => decide (p.1 = left)) ≠ [] := by
    apply List.ne_nil_of_mem (a := p0)
    rw [List.mem_filter]
    exact ⟨hp0Mem, decide_eq_true hp0x⟩
  obtain ⟨tl, htlEq, htlMem, htlMax⟩ := pickTopmost_spec _ hfl
  have htlB : tl ∈ boundary := (List.mem_filter.mp htlMem).1
  have htlx : tl.1 = left := of_decide_eq_true (List.mem_filter.mp htlMem).2
  obtain ⟨right, hmaxEq, hmaxMem, hmaxLe⟩ := pyMax_ok hmapne
  obtain ⟨q0, hq0Mem, hq0x⟩ := List.mem_map.mp hmaxMem
  have hfr : boundary.filter (fun p => decide (p.1 = right)) ≠ [] := by
    apply List.ne_nil_of_mem (a := q0)
    rw [List.mem_filter]
    exact ⟨hq0Mem, decide_eq_true hq0x⟩
  obtain ⟨rm, hrmEq, hrmMem, hrmMax⟩ := pickTopmost_spec _ hfr
  have hrmB : rm ∈ boundary := (List.mem_filter.mp hrmMem).1
  have hrmx : rm.1 = right := of_decide_eq_true (List.mem_filter.mp hrmMem).2
  obtain ⟨idxL, hIdxL, hIdxLhead, _⟩ := pyIndexOf_spec boundary tl htlB
  have hrmRot : rm ∈ boundary.drop idxL ++ boundary.take idxL := mem_rotate hrmB idxL
  obtain ⟨idxR, hIdxR, _, hIdxRlast⟩ := pyIndexOf_spec _ rm hrmRot
  refine ⟨(boundary.drop idxL ++ boundary.take idxL).take (idxR + 1), tl, rm,
    ?_, ?_, ?_, hIdxRlast, htlB, ?_, ?_, hrmB, ?_, ?_⟩
  · unfold postProcessSurface
    simp only [hminEq, htlEq, hmaxEq, hrmEq, hIdxL, hIdxR]
  · intro he
    rw [he] at hIdxRlast
    cases hIdxRlast
  · cases hd : boundary.drop idxL with
    | nil => rw [hd] at hIdxLhead; cases hIdxLhead
    | cons c t =>
      have hc : c = tl := by
        rw [hd] at hIdxLhead
        exact Option.some.inj hIdxLhead
      subst hc
      rw [head?_take_succ]
      exact rfl
  · intro p hp
    rw [htlx]
    exact hminLe p.1 (List.mem_map_of_mem Prod.fst hp)
  · intro p hp hx
    apply htlMax
    rw [List.mem_filter]
    refine ⟨hp, decide_eq_true ?_⟩
    rw [hx, htlx]
  · intro p hp
    rw [hrmx]
    exact hmaxLe p.1 (List.mem_map_of_mem Prod.fst hp)
  · intro p hp hx
    apply hrmMax
    rw [List.mem_filter]
    refine ⟨hp, decide_eq_true ?_⟩
    rw [hx, hrmx]

/-- Witness for C1: the amended theorem applied to the concrete hexagonal
boundary. -/
theorem C1_surface_endpoints_witness :
    hexBoundary ≠ [] ∧
    (∃ s tl rm, postProcessSurface hexBoundary = .ok s ∧ s ≠ [] ∧
      s.head? = some tl ∧ s.getLast? = some rm ∧
      tl ∈ hexBoundary ∧ (∀ p ∈ hexBoundary, tl.1 ≤ p.1) ∧
      (∀ p ∈ hexBoundary, p.1 = tl.1 → p.2 ≤ tl.2) ∧
      rm ∈ hexBoundary ∧ (∀ p ∈ hexBoundary, p.1 ≤ rm.1) ∧
      (∀ p ∈ hexBoundary, p.1 = rm.1 → p.2 ≤ rm.2)) :=
  ⟨by with_unfolding_all decide, C1_surface_endpoints hexBoundary (by with_unfolding_all decide)⟩

/-- Counterexample for C1: the surface derived from the overhanging hexagonal
boundary has x-coordinates 0, 1, 1/2, 2 — not non-decreasing. -/
theorem C1_overhang_counterexample :
    postProcessSurface hexBoundary = .ok [(0, 2), (1, 2), (1/2, 1), (2, 1)]
    ∧ xNonDecreasingB [((0:ℚ), (2:ℚ)), (1, 2), (1/2, 1), (2, 1)] = false := by
  constructor <;> with_unfolding_all decide

theorem bermLayerPoints_add_layer (pB : Pt) (w : DStability) (pts : List Pt)
    (s : Option String) (lb : String) (p q : Pt) :
    bermLayerPoints pB (add_layer w pts s lb) p q = bermLayerPoints pB w p q := rfl

theorem pairChunks_length {α : Type} :
    ∀ l : List α, l.length % 2 = 0 → (pairChunks l).length = l.length / 2
  | [], _ => by simp [pairChunks]
  | [_], h => by simp at h
  | _ :: _ :: rest, h => by
    have hr : rest.length % 2 = 0 := by
      simp only [List.length_cons] at h
      omega
    simp only [pairChunks, List.length_cons]
    rw [pairChunks_length rest hr]
    omega

theorem bermAddLayers_even (soil : String) (pB : Pt) :
    ∀ (ints : List Pt) (w : DStability), ints.length % 2 = 0 →
      bermAddLayers soil pB ints w =
        .ok { w with layers := w.layers ++
          (pairChunks ints).map (fun pr =>
            { points := bermLayerPoints pB w pr.1 pr.2, soil := some soil,
              label := "" }) }
  | [], w, _ => by simp [bermAddLayers, pairChunks]
  | [_], _, h => by simp at h
  | p :: q :: rest, w, h => by
    have hr : rest.length % 2 = 0 := by
      simp only [List.length_cons] at h
      omega
    have ih := bermAddLayers_even soil pB rest (add_layer w (bermLayerPoints pB w p q) (some soil)) hr
    simp only [bermAddLayers]
    rw [ih]
    simp only [bermLayerPoints_add_layer, pairChunks, List.map_cons, add_layer,
      List.append_assoc, List.singleton_append]
    exact rfl

/-- Claim C7 (amended): once the rounded intersection list of the
`[pA, pB, pC]` path is formed, an odd cardinality makes the call raise a
`ValueError` (not `ExecutionError`) whose message is "The berm continues
outside of the right limit of the geometry, cannot create berm", inserting
no layer; with even cardinality exactly one new layer per consecutive pair
is inserted, each built by `bermLayerPoints`. -/
theorem C7_even_odd (soil : String) (pB : Pt) (ints : List Pt) (w : DStability) :
    (ints.length % 2 = 1 →
      bermFinish soil pB ints w = .error (.valueError bermOddMsg))
    ∧ (ints.length % 2 = 0 →
      bermFinish soil pB ints w =
        .ok { w with layers := w.layers ++
          (pairChunks ints).map (fun pr =>
            { points := bermLayerPoints pB w pr.1 pr.2, soil := some soil,
              label := "" }) } ∧
      (pairChunks ints).length = ints.length / 2) := by
  constructor
  · intro h
    unfold bermFinish
    rw [if_pos (by omega)]
  · intro h
    refine ⟨?_, pairChunks_length ints h⟩
    unfold bermFinish
    rw [if_neg (by omega), bermAddLayers_even soil pB ints w h]

/-- Witness for C7: an odd (singleton) intersection list raises the
`ValueError`. -/
theorem C7_even_odd_witness :
    bermFinish "K" (0, 0) [((1:ℚ), (1:ℚ))] dsC7 = .error (.valueError bermOddMsg) :=
  (C7_even_odd "K" (0, 0) [(1, 1)] dsC7).1 (by decide)

set_option maxRecDepth 40000 in
/-- Counterexample for C7: on the tangency scenario the full berm run ends
in a `ValueError` (with a different message wording than the claim quotes),
not an `ExecutionError`. -/
theorem C7_odd_value_error_counterexample :
    bermRun algC7 dsC7 = .err (.valueError bermOddMsg) { self_ds := dsC7, ds := dsC7 }
    ∧ (bermRun algC7 dsC7).isExecError = false := by
  constructor <;> with_unfolding_all decide

/-- Claim C8 (amended): every berm layer polygon and the ditch-fill polygon
are closed along the ground by appending, in reverse order, exactly the
surface points whose x lies between the bounding pair's x-coordinates with
the bounds INCLUDED (`left <= x <= right`), not excluded. -/
theorem C8_layer_closure (pB : Pt) (w : DStability) (p q : Pt) :
    bermLayerPoints pB w p q =
      (if p.1 < pB.1 ∧ pB.1 < q.1 then [p, pB, q] else [p, q])
        ++ (surface_points_between w p.1 q.1).reverse
    ∧ ditchPolygonPoints p q w = [p, q] ++ (surface_points_between w p.1 q.1).reverse
    ∧ ∀ r : Pt, r ∈ (surface_points_between w p.1 q.1).reverse ↔
        r ∈ w.surface ∧ p.1 ≤ r.1 ∧ r.1 ≤ q.1 := by
  refine ⟨rfl, rfl, ?_⟩
  intro r
  simp [surface_points_between, List.mem_reverse, List.mem_filter]

/-- Counterexample for C8: the ditch-fill run appends the surface points
with the bounding x-values 10 and 14 included; the strictly-between variant
the claim describes would differ. -/
theorem C8_inclusive_bounds_counterexample :
    bermRun algC8 dsC8 = .ok dsC8Out { self_ds := dsC8, ds := dsC8Out }
    ∧ ditchPolygonPoints ((10:ℚ), (0:ℚ)) ((14:ℚ), (0:ℚ)) dsC8 ≠
        [((10:ℚ), (0:ℚ)), ((14:ℚ), (0:ℚ))] ++
          (surface_points_strictly_between dsC8 10 14).reverse := by
  constructor <;> with_unfolding_all decide

theorem keepsSelf_pure {α : Type} (a : α) : keepsSelf (pure a : PyM ObjState α) :=
  fun _ => rfl

theorem keepsSelf_getSelf : keepsSelf getSelf := fun _ => rfl

theorem keepsSelf_getWork : keepsSelf getWork := fun _ => rfl

theorem keepsSelf_setWork (d : DStability) : keepsSelf (setWork d) := fun _ => rfl

theorem keepsSelf_liftE {α : Type} (x : Except PyError α) : keepsSelf (liftE x) := by
  intro s
  cases x <;> exact rfl

theorem keepsSelf_bind {α β : Type} {m : PyM ObjState α} {f : α → PyM ObjState β}
    (hm : keepsSelf m) (hf : ∀ a, keepsSelf (f a)) : keepsSelf (m >>= f) := by
  intro s
  show selfOf (PyM.bind m f s) = s.self_ds
  unfold PyM.bind
  cases hq : m s with
  | ok a s' =>
    have h2 : s'.self_ds = s.self_ds := by
      have h := hm s
      rw [hq] at h
      exact h
    exact (hf a s').trans h2
  | err e s' =>
    have h := hm s
    rw [hq] at h
    exact h

theorem keepsSelf_ite {α : Type} (c : Prop) [Decidable c] {t e : PyM ObjState α}
    (ht : keepsSelf t) (he : keepsSelf e) : keepsSelf (if c then t else e) := by
  by_cases h : c
  · rw [if_pos h]; exact ht
  · rw [if_neg h]; exact he

theorem bermFillDitchM_keepsSelf (alg : BermAlg) : keepsSelf (bermFillDitchM alg) := by
  unfold bermFillDitchM
  apply keepsSelf_ite
  · apply keepsSelf_bind keepsSelf_getSelf
    intro selfDs
    apply keepsSelf_bind (keepsSelf_liftE _)
    intro fp
    apply keepsSelf_bind keepsSelf_getWork
    intro w
    exact keepsSelf_setWork _
  · exact keepsSelf_pure ()

theorem bermSizeM_keepsSelf (alg : BermAlg) : keepsSelf (bermSizeM alg) := by
  unfold bermSizeM
  apply keepsSelf_ite
  · exact keepsSelf_getWork
  · apply keepsSelf_bind keepsSelf_getWork
    intro w
    apply keepsSelf_bind (keepsSelf_liftE _)
    intro ds2
    apply keepsSelf_bind (keepsSelf_setWork _)
    intro _
    exact keepsSelf_getWork

theorem bermExecuteM_keepsSelf (alg : BermAlg) : keepsSelf (bermExecuteM alg) := by
  unfold bermExecuteM
  apply keepsSelf_bind keepsSelf_getSelf
  intro orig
  apply keepsSelf_bind (keepsSelf_setWork orig)
  intro _
  apply keepsSelf_bind (bermFillDitchM_keepsSelf alg)
  intro _
  exact bermSizeM_keepsSelf alg

theorem phreaticExecuteM_keepsSelf (alg : PhreaticAlg) :
    keepsSelf (phreaticExecuteM alg) := by
  unfold phreaticExecuteM
  apply keepsSelf_bind keepsSelf_getSelf
  intro orig
  apply keepsSelf_bind (keepsSelf_setWork orig)
  intro _
  apply keepsSelf_bind keepsSelf_getWork
  intro w
  apply keepsSelf_bind (keepsSelf_liftE _)
  intro abcdef
  apply keepsSelf_bind (keepsSelf_liftE _)
  intro pl
  apply keepsSelf_bind keepsSelf_getWork
  intro w2
  apply keepsSelf_bind (keepsSelf_setWork _)
  intro _
  exact keepsSelf_getWork

/-- Claim C2 (confirmed): both construction algorithms leave the caller's
cross-section value unchanged whether they return normally or raise — every
geometry insertion targets the working copy made on entry — and the same
holds for the full check-then-execute runs. -/
theorem C2_deep_copy_frame (balg : BermAlg) (palg : PhreaticAlg) (orig : DStability) :
    callerUnchanged (bermExecuteM balg { self_ds := orig, ds := orig }) orig
    ∧ callerUnchanged (phreaticExecuteM palg { self_ds := orig, ds := orig }) orig
    ∧ callerUnchanged (bermRun balg orig) orig
    ∧ callerUnchanged (phreaticRun palg orig) orig := by
  refine ⟨bermExecuteM_keepsSelf balg _, phreaticExecuteM_keepsSelf palg _, ?_, ?_⟩
  · unfold bermRun
    cases bermCheckInput balg orig with
    | error e => exact rfl
    | ok a => exact bermExecuteM_keepsSelf a _
  · unfold phreaticRun
    cases phreatic_check_input orig with
    | error e => exact rfl
    | ok a => exact phreaticExecuteM_keepsSelf palg _

theorem lin_between {a b u : ℚ} (h0 : 0 ≤ u) (h1 : u ≤ 1) :
    min a b ≤ a + u * (b - a) ∧ a + u * (b - a) ≤ max a b := by
  rcases le_total a b with hab | hab
  · rw [min_eq_left hab, max_eq_right hab]
    constructor
    · nlinarith
    · nlinarith
  · rw [min_eq_right hab, max_eq_left hab]
    constructor
    · nlinarith
    · nlinarith

theorem segSegIntersection_x_bounds {s1 s2 q1 q2 r : Pt}
    (h : segSegIntersection s1 s2 q1 q2 = some r) :
    min q1.1 q2.1 ≤ r.1 ∧ r.1 ≤ max q1.1 q2.1 := by
  unfold segSegIntersection at h
  split_ifs at h with hd hc
  injection h with h'
  subst h'
  exact lin_between hc.2.2.1 hc.2.2.2

theorem edgesOf_nil : edgesOf [] = [] := rfl

theorem edgesOf_single (x : Pt) : edgesOf [x] = [] := rfl

theorem edgesOf_cons₂ (x y : Pt) (l : List Pt) :
    edgesOf (x :: y :: l) = (x, y) :: edgesOf (y :: l) := rfl

theorem xNonDecreasingB_cons₂ {x y : Pt} {l : List Pt}
    (h : xNonDecreasingB (x :: y :: l) = true) :
    x.1 ≤ y.1 ∧ xNonDecreasingB (y :: l) = true := by
  simp only [xNonDecreasingB, Bool.and_eq_true, decide_eq_true_eq] at h
  exact h

theorem intersections_lower_bound (s1 s2 : Pt) :
    ∀ (y : Pt) (rest : List Pt), xNonDecreasingB (y :: rest) = true →
      ∀ r ∈ (edgesOf (y :: rest)).filterMap
        (fun e => segSegIntersection s1 s2 e.1 e.2), y.1 ≤ r.1 := by
  intro y rest
  induction rest generalizing y with
  | nil =>
    intro _ r hr
    rw [edgesOf_single] at hr
    cases hr
  | cons z rest ih =>
    intro hmono r hr
    obtain ⟨hyz, hmono'⟩ := xNonDecreasingB_cons₂ hmono
    rw [edgesOf_cons₂, List.filterMap_cons] at hr
    cases hse : segSegIntersection s1 s2 y z with
    | none =>
      rw [hse] at hr
      exact le_trans hyz (ih z hmono' r hr)
    | some v =>
      rw [hse] at hr
      rcases List.mem_cons.mp hr with rfl | hr'
      · have hb := segSegIntersection_x_bounds hse
        calc y.1 = min y.1 z.1 := (min_eq_left hyz).symm
          _ ≤ r.1 := hb.1
      · exact le_trans hyz (ih z hmono' r hr')

theorem intersections_pairwise (s1 s2 : Pt) :
    ∀ b : List Pt, xNonDecreasingB b = true →
      ((edgesOf b).filterMap (fun e => segSegIntersection s1 s2 e.1 e.2)).Pairwise
        (fun p q : Pt => p.1 ≤ q.1)
  | [], _ => by rw [edgesOf_nil]; exact List.Pairwise.nil
  | [x], _ => by rw [edgesOf_single]; exact List.Pairwise.nil
  | x :: y :: rest, hmono => by
    obtain ⟨hxy, hmono'⟩ := xNonDecreasingB_cons₂ hmono
    have ih := intersections_pairwise s1 s2 (y :: rest) hmono'
    rw [edgesOf_cons₂, List.filterMap_cons]
    cases hse : segSegIntersection s1 s2 x y with
    | none => exact ih
    | some v =>
      refine List.Pairwise.cons ?_ ih
      intro r hr
      have hb := segSegIntersection_x_bounds hse
      have h1 : v.1 ≤ y.1 := le_trans hb.2 (le_of_eq (max_eq_right hxy))
      exact le_trans h1 (intersections_lower_bound s1 s2 y rest hmono' r hr)

theorem ppi_single (s1 s2 : Pt) (b : List Pt) :
    polyline_polyline_intersections [s1, s2] b =
      (edgesOf b).filterMap (fun e => segSegIntersection s1 s2 e.1 e.2) := by
  simp [polyline_polyline_intersections, edgesOf]

theorem mem_of_getLast? {α : Type} :
    ∀ {l : List α} {a : α}, l.getLast? = some a → a ∈ l
  | [], _, h => by cases h
  | [x], a, h => by
    rw [show ([x] : List α).getLast? = some x from rfl] at h
    injection h with h'
    subst h'
    exact List.mem_cons_self _ []
  | x :: y :: l, a, h => by
    rw [List.getLast?_cons_cons] at h
    exact List.mem_cons_of_mem x (mem_of_getLast? h)

theorem getLast?_max_of_pairwise :
    ∀ {l : List Pt}, l.Pairwise (fun p q : Pt => p.1 ≤ q.1) →
      ∀ {a : Pt}, l.getLast? = some a → ∀ b ∈ l, b.1 ≤ a.1
  | [], _, _, h => by cases h
  | [x], _, a, h => by
    rw [show ([x] : List Pt).getLast? = some x from rfl] at h
    injection h with h'
    subst h'
    intro b hb
    rcases List.mem_cons.mp hb with rfl | hb
    · exact le_refl b.1
    · cases hb
  | x :: y :: l, hp, a, h => by
    rw [List.getLast?_cons_cons] at h
    obtain ⟨hx, hp'⟩ := List.pairwise_cons.mp hp
    have ih := getLast?_max_of_pairwise hp' h
    intro b hb
    rcases List.mem_cons.mp hb with rfl | hb
    · exact le_trans (hx a (mem_of_getLast? h)) (le_refl a.1)
    · exact ih b hb

/-- Claim C6 (amended): the kept intersections of the top line P3–P4 with
the surface are those strictly left of the toe; with none left the call
fails with a `ValueError` (not `ExecutionError`) whose message is "No
intersections on the left side of x_toe, can not create a berm"; otherwise,
provided the surface has non-decreasing x-coordinates, the code's choice of
pA (the last kept intersection) is a rightmost one. -/
theorem C6_left_intersections_pA (alg : BermAlg) (w : DStability)
    (p1 p2 p3 p4 : Pt) (kept : List Pt)
    (hps : bermP1234 alg w = .ok (p1, p2, p3, p4))
    (hmono : xNonDecreasingB w.surface = true)
    (hkept : kept = (polyline_polyline_intersections [p3, p4] w.surface).filter
      (fun p => decide (p.1 < p1.1))) :
    (kept = [] → bermPA kept = .error (.valueError bermNoLeftMsg))
    ∧ ∀ pa, bermPA kept = .ok pa → pa ∈ kept ∧ ∀ q ∈ kept, q.1 ≤ pa.1 := by
  have hpw : (polyline_polyline_intersections [p3, p4] w.surface).Pairwise
      (fun p q : Pt => p.1 ≤ q.1) := by
    rw [ppi_single]
    exact intersections_pairwise p3 p4 w.surface hmono
  have hkpw : kept.Pairwise (fun p q : Pt => p.1 ≤ q.1) := by
    rw [hkept]
    exact hpw.filter _
  constructor
  · intro hk
    rw [hk]
    rfl
  · intro pa hpa
    unfold bermPA at hpa
    cases hl : kept.getLast? with
    | none => rw [hl] at hpa; cases hpa
    | some a =>
      rw [hl] at hpa
      injection hpa with h'
      subst h'
      exact ⟨mem_of_getLast? hl, getLast?_max_of_pairwise hkpw hl⟩

/-- Witness for C6: the concrete berm scenario whose top line misses every
surface edge left of the toe. -/
theorem C6_left_intersections_pA_witness :
    bermPA [] = .error (.valueError bermNoLeftMsg) :=
  (C6_left_intersections_pA { algC6 with embankement_toe_land_side := some 15 } dsC6
    (15, 5) (15, 7) (0, 17/2) (20, 13/2) []
    (by with_unfolding_all decide) (by with_unfolding_all decide)
    (by with_unfolding_all decide)).1 rfl

/-- Counterexample for C6: on the concrete no-left-intersection scenario the
full berm run raises a `ValueError`, not an `ExecutionError`. -/
theorem C6_value_error_counterexample :
    bermRun algC6 dsC6 = .err (.valueError bermNoLeftMsg) { self_ds := dsC6, ds := dsC6 }
    ∧ (bermRun algC6 dsC6).isExecError = false := by
  constructor <;> with_unfolding_all decide
